import Mathlib

/-!
Verification development for the Image-Filtering-and-Segmentation web app.

The app (src/src/App.tsx, and a dark-mode variant in src/unnamed/part_000)
is a thin orchestration layer over an external vision library (OpenCV.js).
We embed its observable behaviour shallowly:

  * `CvCall` is the alphabet of observable actions inside `processImage`'s
    try block: vision-library calls (with their literal parameters), matrix
    allocation and release, rendering to the canvas, and the state update
    storing the canvas data URL.
  * `AppState` mirrors the React component state (`selectedImage`,
    `processedImage`, `selectedTechnique`, `isProcessing`) plus mount flags
    for the image and canvas refs that the guard reads.
  * `execCalls` runs a list of actions with an optional throw point
    (`some i` means the action at index i raises, so it and everything after
    it is skipped and control transfers to the catch block); `processImage`
    is the guard, the try block, the catch-all (reported via the returned
    Bool, the single console log) and the finally clause resetting
    `isProcessing`.
  * The canvas content after `cv.imshow` is abstracted by the data URL
    string `d` that `canvas.toDataURL()` would return.
-/

/-- Observable actions inside processImage's try block, with the literal
parameters the source passes to the vision library. -/
inductive CvCall where
  | imread : CvCall
  | matNew : CvCall
  | gaussianBlur (kw kh sigmaX sigmaY border : Nat) : CvCall
  | medianBlur (ksize : Nat) : CvCall
  | cvtColor (code : Nat) : CvCall
  | canny (threshold1 threshold2 apertureSize : Nat) (l2gradient : Bool) : CvCall
  | laplacian (ddepth ksize scale delta border : Nat) : CvCall
  | threshold (thresh maxval ttype : Nat) : CvCall
  | getStructuringElement (shape kw kh : Nat) : CvCall
  | morphologyEx (op : Nat) : CvCall
  | imshow : CvCall
  | setProcessedFromCanvas : CvCall
  | matDelete (buf : String) : CvCall
deriving DecidableEq

/-! OpenCV constants referenced by the source (values fixed by OpenCV). -/

def cv.BORDER_DEFAULT : Nat := 4

def cv.COLOR_RGBA2GRAY : Nat := 11

def cv.CV_8U : Nat := 0

def cv.THRESH_BINARY : Nat := 0

def cv.THRESH_OTSU : Nat := 8

def cv.MORPH_RECT : Nat := 0

def cv.MORPH_OPEN : Nat := 2

/-! The TECHNIQUES object (App.tsx lines 6-18). -/

def TECHNIQUES.FILTERING.GAUSSIAN : String := "Gaussian Blur"

def TECHNIQUES.FILTERING.MEDIAN : String := "Median Filter"

def TECHNIQUES.FILTERING.CANNY : String := "Canny Edge Detection"

def TECHNIQUES.FILTERING.LAPLACIAN : String := "Laplacian Spatial Filter"

def TECHNIQUES.SEGMENTATION.BINARY : String := "Binary Thresholding"

def TECHNIQUES.SEGMENTATION.OTSU : String := "Otsu\x27s Thresholding"

def TECHNIQUES.SEGMENTATION.MORPHOLOGICAL : String := "Morphological Cleaning"

/-- Object.values(TECHNIQUES.FILTERING), in declaration order. -/
def filteringTechniques : List String :=
  [TECHNIQUES.FILTERING.GAUSSIAN, TECHNIQUES.FILTERING.MEDIAN,
   TECHNIQUES.FILTERING.CANNY, TECHNIQUES.FILTERING.LAPLACIAN]

/-- Object.values(TECHNIQUES.SEGMENTATION), in declaration order. -/
def segmentationTechniques : List String :=
  [TECHNIQUES.SEGMENTATION.BINARY, TECHNIQUES.SEGMENTATION.OTSU,
   TECHNIQUES.SEGMENTATION.MORPHOLOGICAL]

/-- All technique names offered to the user (four filtering radios followed
by three segmentation radios, App.tsx lines 209-245). -/
def techniqueNames : List String := filteringTechniques ++ segmentationTechniques

/-- The values the radio inputs can fire `setSelectedTechnique` with. -/
def radioValues : List String := techniqueNames

/-- The switch statement of processImage (App.tsx lines 100-136): the actions
performed for each technique name, with the literal parameters. An unmatched
string falls through the switch doing nothing. -/
def dispatchCalls (t : String) : List CvCall :=
  if t = TECHNIQUES.FILTERING.GAUSSIAN then
    [CvCall.gaussianBlur 5 5 0 0 cv.BORDER_DEFAULT]
  else if t = TECHNIQUES.FILTERING.MEDIAN then
    [CvCall.medianBlur 5]
  else if t = TECHNIQUES.FILTERING.CANNY then
    [CvCall.cvtColor cv.COLOR_RGBA2GRAY, CvCall.canny 50 150 3 false]
  else if t = TECHNIQUES.FILTERING.LAPLACIAN then
    [CvCall.cvtColor cv.COLOR_RGBA2GRAY,
     CvCall.laplacian cv.CV_8U 1 1 0 cv.BORDER_DEFAULT]
  else if t = TECHNIQUES.SEGMENTATION.BINARY then
    [CvCall.cvtColor cv.COLOR_RGBA2GRAY, CvCall.threshold 127 255 cv.THRESH_BINARY]
  else if t = TECHNIQUES.SEGMENTATION.OTSU then
    [CvCall.cvtColor cv.COLOR_RGBA2GRAY,
     CvCall.threshold 0 255 (cv.THRESH_BINARY + cv.THRESH_OTSU)]
  else if t = TECHNIQUES.SEGMENTATION.MORPHOLOGICAL then
    [CvCall.cvtColor cv.COLOR_RGBA2GRAY, CvCall.threshold 127 255 cv.THRESH_BINARY,
     CvCall.getStructuringElement cv.MORPH_RECT 5 5,
     CvCall.morphologyEx cv.MORPH_OPEN, CvCall.matDelete "kernel"]
  else []

/-- Which actions are calls into the vision library (as opposed to buffer
release or React state updates). -/
def isLibCall : CvCall → Bool
  | CvCall.imread => true
  | CvCall.matNew => false
  | CvCall.gaussianBlur _ _ _ _ _ => true
  | CvCall.medianBlur _ => true
  | CvCall.cvtColor _ => true
  | CvCall.canny _ _ _ _ => true
  | CvCall.laplacian _ _ _ _ _ => true
  | CvCall.threshold _ _ _ => true
  | CvCall.getStructuringElement _ _ _ => true
  | CvCall.morphologyEx _ => true
  | CvCall.imshow => true
  | CvCall.setProcessedFromCanvas => false
  | CvCall.matDelete _ => false

/-- The native buffer an action allocates, if any: cv.imread allocates the
source matrix, `new cv.Mat()` the destination, getStructuringElement the
morphological kernel. -/
def allocates : CvCall → Option String
  | CvCall.imread => some "img"
  | CvCall.matNew => some "dst"
  | CvCall.getStructuringElement _ _ _ => some "kernel"
  | _ => none

/-- The native buffer an action releases, if any. -/
def releases : CvCall → Option String
  | CvCall.matDelete b => some b
  | _ => none

def allocatedBufs (evs : List CvCall) : List String := evs.filterMap allocates

def releasedBufs (evs : List CvCall) : List String := evs.filterMap releases

/-- The whole try block of processImage for a given technique: imread, the
destination Mat allocation, the switch dispatch, cv.imshow, storing the
canvas data URL, then img.delete() and dst.delete(). -/
def tryBody (t : String) : List CvCall :=
  [CvCall.imread, CvCall.matNew] ++ dispatchCalls t ++
    [CvCall.imshow, CvCall.setProcessedFromCanvas,
     CvCall.matDelete "img", CvCall.matDelete "dst"]

/-- The React component state, plus mount flags for the two refs the guard
reads (`imageRef.current`, `canvasRef.current`). -/
structure AppState where
  selectedImage : Option String
  processedImage : Option String
  selectedTechnique : String
  isProcessing : Bool
  imageMounted : Bool
  canvasMounted : Bool
deriving DecidableEq

/-- Initial component state (App.tsx lines 21-24; both refs start unmounted). -/
def initState : AppState :=
  { selectedImage := none, processedImage := none, selectedTechnique := "",
    isProcessing := false, imageMounted := false, canvasMounted := false }

/-- JavaScript truthiness of a string-or-null value: null and the empty
string are falsy. -/
def jsFalsy : Option String → Bool
  | none => true
  | some str => decide (str = "")

/-- The guard of processImage (App.tsx line 92): return early when
!selectedImage, !selectedTechnique, !imageRef.current or !canvasRef.current. -/
def guardFails (s : AppState) : Bool :=
  jsFalsy s.selectedImage || decide (s.selectedTechnique = "") ||
    !s.imageMounted || !s.canvasMounted

/-- The Process Image button's disabled condition (App.tsx line 250). -/
def buttonDisabled (s : AppState) : Bool :=
  jsFalsy s.selectedImage || decide (s.selectedTechnique = "") || s.isProcessing

/-- Effect of one try-block action on component state: only
setProcessedImage(canvas.toDataURL()) changes it, storing the canvas data
URL `d`. -/
def applyCall (d : String) (s : AppState) : CvCall → AppState
  | CvCall.setProcessedFromCanvas => { s with processedImage := some d }
  | _ => s

/-- Run a list of try-block actions. `ta = some i` means the action at index
i throws: its effect and everything after it is skipped. Returns the actions
actually performed, the resulting state, and whether a throw occurred. -/
def execCalls (d : String) : List CvCall → AppState → Option Nat →
    List CvCall × AppState × Bool
  | [], s, _ => ([], s, false)
  | _ :: _, s, some 0 => ([], s, true)
  | c :: rest, s, ta =>
      let r := execCalls d rest (applyCall d s c) (ta.map (fun n => n - 1))
      (c :: r.1, r.2.1, r.2.2)

/-- processImage (App.tsx lines 91-148): guard, setIsProcessing(true), the
try block, the catch-all console.error (reported as the returned Bool), and
the finally clause setIsProcessing(false). `d` is the data URL the canvas
yields after cv.imshow; `ta` is the optional throw point. -/
def processImage (d : String) (ta : Option Nat) (s : AppState) :
    List CvCall × AppState × Bool :=
  if guardFails s then ([], s, false)
  else
    let r := execCalls d (tryBody s.selectedTechnique)
      { s with isProcessing := true } ta
    (r.1, { r.2.1 with isProcessing := false }, r.2.2)

/-- handleImageUpload (App.tsx lines 82-89), at the point the FileReader's
onload fires with the file's data URL: store it and clear the processed
image. Both the file picker and the drop handler route through this
function. -/
def handleImageUpload (s : AppState) (fileDataUrl : String) : AppState :=
  { s with selectedImage := some fileDataUrl, processedImage := none }

/-- An anchor-click download action: href and the download filename. -/
structure DownloadAction where
  href : String
  filename : String
deriving DecidableEq

/-- downloadImage (App.tsx lines 150-159): no-op when processedImage is
null, otherwise click a link with href = processedImage and
download = processed-image.png. -/
def downloadImage (s : AppState) : List DownloadAction :=
  match s.processedImage with
  | none => []
  | some url => [{ href := url, filename := "processed-image.png" }]

/-- A concrete state passing the guard, used by the witnesses. -/
def exState : AppState :=
  { selectedImage := some "data:image/png;base64,iVBOR", processedImage := none,
    selectedTechnique := TECHNIQUES.FILTERING.MEDIAN, isProcessing := false,
    imageMounted := true, canvasMounted := true }

/-!
The dark-mode variant (src/unnamed/part_000). Its processImage is
transcribed independently below; the component state additionally carries
`isDarkMode`.
-/

namespace V2

def TECHNIQUES.FILTERING.GAUSSIAN : String := "Gaussian Blur"

def TECHNIQUES.FILTERING.MEDIAN : String := "Median Filter"

def TECHNIQUES.FILTERING.CANNY : String := "Canny Edge Detection"

def TECHNIQUES.FILTERING.LAPLACIAN : String := "Laplacian Spatial Filter"

def TECHNIQUES.SEGMENTATION.BINARY : String := "Binary Thresholding"

def TECHNIQUES.SEGMENTATION.OTSU : String := "Otsu\x27s Thresholding"

def TECHNIQUES.SEGMENTATION.MORPHOLOGICAL : String := "Morphological Cleaning"

/-- Component state of the dark-mode variant (part_000 lines 22-26). -/
structure AppState where
  selectedImage : Option String
  processedImage : Option String
  selectedTechnique : String
  isProcessing : Bool
  isDarkMode : Bool
  imageMounted : Bool
  canvasMounted : Bool
deriving DecidableEq

/-- The switch statement of the variant's processImage (part_000 lines
102-138). -/
def dispatchCalls (t : String) : List CvCall :=
  if t = TECHNIQUES.FILTERING.GAUSSIAN then
    [CvCall.gaussianBlur 5 5 0 0 cv.BORDER_DEFAULT]
  else if t = TECHNIQUES.FILTERING.MEDIAN then
    [CvCall.medianBlur 5]
  else if t = TECHNIQUES.FILTERING.CANNY then
    [CvCall.cvtColor cv.COLOR_RGBA2GRAY, CvCall.canny 50 150 3 false]
  else if t = TECHNIQUES.FILTERING.LAPLACIAN then
    [CvCall.cvtColor cv.COLOR_RGBA2GRAY,
     CvCall.laplacian cv.CV_8U 1 1 0 cv.BORDER_DEFAULT]
  else if t = TECHNIQUES.SEGMENTATION.BINARY then
    [CvCall.cvtColor cv.COLOR_RGBA2GRAY, CvCall.threshold 127 255 cv.THRESH_BINARY]
  else if t = TECHNIQUES.SEGMENTATION.OTSU then
    [CvCall.cvtColor cv.COLOR_RGBA2GRAY,
     CvCall.threshold 0 255 (cv.THRESH_BINARY + cv.THRESH_OTSU)]
  else if t = TECHNIQUES.SEGMENTATION.MORPHOLOGICAL then
    [CvCall.cvtColor cv.COLOR_RGBA2GRAY, CvCall.threshold 127 255 cv.THRESH_BINARY,
     CvCall.getStructuringElement cv.MORPH_RECT 5 5,
     CvCall.morphologyEx cv.MORPH_OPEN, CvCall.matDelete "kernel"]
  else []

/-- The variant's try block (part_000 lines 99-144). -/
def tryBody (t : String) : List CvCall :=
  [CvCall.imread, CvCall.matNew] ++ dispatchCalls t ++
    [CvCall.imshow, CvCall.setProcessedFromCanvas,
     CvCall.matDelete "img", CvCall.matDelete "dst"]

/-- The variant's guard (part_000 line 94). -/
def guardFails (s : AppState) : Bool :=
  jsFalsy s.selectedImage || decide (s.selectedTechnique = "") ||
    !s.imageMounted || !s.canvasMounted

/-- Effect of one try-block action on the variant's component state. -/
def applyCall (d : String) (s : AppState) : CvCall → AppState
  | CvCall.setProcessedFromCanvas => { s with processedImage := some d }
  | _ => s

/-- Run the variant's try-block actions with an optional throw point. -/
def execCalls (d : String) : List CvCall → AppState → Option Nat →
    List CvCall × AppState × Bool
  | [], s, _ => ([], s, false)
  | _ :: _, s, some 0 => ([], s, true)
  | c :: rest, s, ta =>
      let r := execCalls d rest (applyCall d s c) (ta.map (fun n => n - 1))
      (c :: r.1, r.2.1, r.2.2)

/-- The variant's processImage (part_000 lines 93-150). -/
def processImage (d : String) (ta : Option Nat) (s : AppState) :
    List CvCall × AppState × Bool :=
  if guardFails s then ([], s, false)
  else
    let r := execCalls d (tryBody s.selectedTechnique)
      { s with isProcessing := true } ta
    (r.1, { r.2.1 with isProcessing := false }, r.2.2)

end V2

/-- Forget the dark-mode flag: the variant's state projected onto the base
version's state. -/
def projV2 (s : V2.AppState) : AppState :=
  { selectedImage := s.selectedImage, processedImage := s.processedImage,
    selectedTechnique := s.selectedTechnique, isProcessing := s.isProcessing,
    imageMounted := s.imageMounted, canvasMounted := s.canvasMounted }

/-!
Reachable UI states of the base version: every way the component state can
change. `selectedTechnique` is only ever written by the radio onChange
handlers, whose values come from the seven rendered radio inputs.
-/

/-- One UI transition of the base version. -/
inductive UIStep : AppState → AppState → Prop
  | upload (s : AppState) (url : String) : UIStep s (handleImageUpload s url)
  | selectTech (s : AppState) (t : String) (h : t ∈ radioValues) :
      UIStep s { s with selectedTechnique := t }
  | render (s : AppState) (im cm : Bool) :
      UIStep s { s with imageMounted := im, canvasMounted := cm }
  | process (s : AppState) (d : String) (ta : Option Nat) :
      UIStep s (processImage d ta s).2.1
  | download (s : AppState) : UIStep s s

/-- States reachable from the initial state by UI transitions. -/
inductive Reachable : AppState → Prop
  | init : Reachable initState
  | step {s t : AppState} : Reachable s → UIStep s t → Reachable t

/-! Basic lemmas about the execution model. -/

/-- The actions actually performed depend only on the action list and the
throw point: all of them when no throw occurs, the first i when action i
throws. -/
theorem execCalls_fst (d : String) (l : List CvCall) : ∀ (s : AppState) (ta : Option Nat),
    (execCalls d l s ta).1 = (match ta with | none => l | some i => l.take i) := by
  induction l with
  | nil => intro s ta; cases ta <;> simp [execCalls]
  | cons c rest ih =>
    intro s ta
    cases ta with
    | none => simp [execCalls, ih]
    | some n =>
      cases n with
      | zero => simp [execCalls]
      | succ m => simp [execCalls, ih]

/-- A throw is reported exactly when the throw point lies inside the list. -/
theorem execCalls_threw (d : String) (l : List CvCall) : ∀ (s : AppState) (ta : Option Nat),
    (execCalls d l s ta).2.2 =
      (match ta with | none => false | some i => decide (i < l.length)) := by
  induction l with
  | nil => intro s ta; cases ta <;> simp [execCalls]
  | cons c rest ih =>
    intro s ta
    cases ta with
    | none => simp [execCalls, ih]
    | some n =>
      cases n with
      | zero => simp [execCalls]
      | succ m => simp [execCalls, ih]

/-- Try-block actions never change these state fields. -/
theorem applyCall_fields (d : String) (s : AppState) (c : CvCall) :
    (applyCall d s c).selectedImage = s.selectedImage ∧
    (applyCall d s c).selectedTechnique = s.selectedTechnique ∧
    (applyCall d s c).isProcessing = s.isProcessing ∧
    (applyCall d s c).imageMounted = s.imageMounted ∧
    (applyCall d s c).canvasMounted = s.canvasMounted := by
  cases c <;> simp [applyCall]

/-- Running the try block never changes these state fields. -/
theorem execCalls_fields (d : String) (l : List CvCall) : ∀ (s : AppState) (ta : Option Nat),
    (execCalls d l s ta).2.1.selectedImage = s.selectedImage ∧
    (execCalls d l s ta).2.1.selectedTechnique = s.selectedTechnique ∧
    (execCalls d l s ta).2.1.isProcessing = s.isProcessing ∧
    (execCalls d l s ta).2.1.imageMounted = s.imageMounted ∧
    (execCalls d l s ta).2.1.canvasMounted = s.canvasMounted := by
  induction l with
  | nil => intro s ta; cases ta <;> simp [execCalls]
  | cons c rest ih =>
    intro s ta
    cases ta with
    | none =>
      have hc := applyCall_fields d s c
      have hr := ih (applyCall d s c) none
      simp only [execCalls]
      exact ⟨hr.1.trans hc.1, hr.2.1.trans hc.2.1, hr.2.2.1.trans hc.2.2.1,
        hr.2.2.2.1.trans hc.2.2.2.1, hr.2.2.2.2.trans hc.2.2.2.2⟩
    | some n =>
      cases n with
      | zero => simp [execCalls]
      | succ m =>
        have hc := applyCall_fields d s c
        have hr := ih (applyCall d s c) (some m)
        simp only [execCalls, Option.map_some', Nat.add_sub_cancel]
        exact ⟨hr.1.trans hc.1, hr.2.1.trans hc.2.1, hr.2.2.1.trans hc.2.2.1,
          hr.2.2.2.1.trans hc.2.2.2.1, hr.2.2.2.2.trans hc.2.2.2.2⟩

/-- If the performed actions do not include the setProcessedImage step,
the processed image is unchanged. -/
theorem execCalls_pI_of_not_mem (d : String) (l : List CvCall) :
    ∀ (s : AppState) (ta : Option Nat),
    CvCall.setProcessedFromCanvas ∉ (execCalls d l s ta).1 →
    (execCalls d l s ta).2.1.processedImage = s.processedImage := by
  induction l with
  | nil => intro s ta _; cases ta <;> simp [execCalls]
  | cons c rest ih =>
    intro s ta hmem
    cases ta with
    | none =>
      simp only [execCalls, Option.map_none'] at hmem ⊢
      have hc : c ≠ CvCall.setProcessedFromCanvas := by
        intro h; exact hmem (h ▸ List.mem_cons_self c _)
      have hpres : (applyCall d s c).processedImage = s.processedImage := by
        cases c <;> simp [applyCall] at hc ⊢
      have := ih (applyCall d s c) none (fun h => hmem (List.mem_cons_of_mem c h))
      rw [this, hpres]
    | some n =>
      cases n with
      | zero => simp [execCalls]
      | succ m =>
        simp only [execCalls, Option.map_some', Nat.add_sub_cancel] at hmem ⊢
        have hc : c ≠ CvCall.setProcessedFromCanvas := by
          intro h; exact hmem (h ▸ List.mem_cons_self c _)
        have hpres : (applyCall d s c).processedImage = s.processedImage := by
          cases c <;> simp [applyCall] at hc ⊢
        have := ih (applyCall d s c) (some m) (fun h => hmem (List.mem_cons_of_mem c h))
        rw [this, hpres]

/-- A run with no throw point performs the whole list, folding the state. -/
theorem execCalls_none_eq (d : String) (l : List CvCall) : ∀ (s : AppState),
    execCalls d l s none = (l, l.foldl (applyCall d) s, false) := by
  induction l with
  | nil => intro s; simp [execCalls]
  | cons c rest ih => intro s; simp [execCalls, ih, List.foldl]

/-- No switch branch performs the setProcessedImage step. -/
theorem setProcessed_not_in_dispatch (t : String) :
    CvCall.setProcessedFromCanvas ∉ dispatchCalls t := by
  unfold dispatchCalls
  split_ifs <;> decide

/-- Every buffer a switch branch allocates, the same branch releases
(only the morphological branch allocates one, the kernel, and deletes it). -/
theorem dispatch_alloc_sub_release (t : String) :
    ∀ b ∈ allocatedBufs (dispatchCalls t), b ∈ releasedBufs (dispatchCalls t) := by
  unfold dispatchCalls
  split_ifs <;> intro b hb <;>
    (simp [allocatedBufs, releasedBufs, allocates, releases] at hb ⊢; try exact hb)

/-- A successful guarded run performs exactly the try block's actions. -/
theorem processImage_fst_none (d : String) (s : AppState)
    (hg : guardFails s = false) :
    (processImage d none s).1 = tryBody s.selectedTechnique := by
  simp [processImage, hg, execCalls_none_eq]

/-- A guarded run that throws at action i performs exactly the first i
actions of the try block. -/
theorem processImage_fst_some (d : String) (i : Nat) (s : AppState)
    (hg : guardFails s = false) :
    (processImage d (some i) s).1 = (tryBody s.selectedTechnique).take i := by
  simp [processImage, hg, execCalls_fst]

/-- The throw flag of a guarded run. -/
theorem processImage_threw (d : String) (ta : Option Nat) (s : AppState)
    (hg : guardFails s = false) :
    (processImage d ta s).2.2 =
      (match ta with
       | none => false
       | some i => decide (i < (tryBody s.selectedTechnique).length)) := by
  simp only [processImage, hg, Bool.false_eq_true, if_false]
  exact execCalls_threw d _ _ ta

/-- processImage never changes the selected image, the selected technique
or the mount flags, and always leaves isProcessing false when it started
false. -/
theorem processImage_fields (d : String) (ta : Option Nat) (s : AppState)
    (hg : guardFails s = false) :
    (processImage d ta s).2.1.selectedImage = s.selectedImage ∧
    (processImage d ta s).2.1.selectedTechnique = s.selectedTechnique ∧
    (processImage d ta s).2.1.isProcessing = false ∧
    (processImage d ta s).2.1.imageMounted = s.imageMounted ∧
    (processImage d ta s).2.1.canvasMounted = s.canvasMounted := by
  have h := execCalls_fields d (tryBody s.selectedTechnique)
    { s with isProcessing := true } ta
  simp only [processImage, hg, Bool.false_eq_true, if_false]
  exact ⟨h.1, h.2.1, trivial, h.2.2.2.1, h.2.2.2.2⟩

/-- The state fields of a run that fails the guard are unchanged. -/
theorem processImage_guard_fail (d : String) (ta : Option Nat) (s : AppState)
    (hg : guardFails s = true) :
    processImage d ta s = ([], s, false) := by
  simp [processImage, hg]

/-- Folding the whole try block stores the canvas data URL as the processed
image: the suffix after the switch is imshow, the store, and the two
deletes, none of which undo the store. -/
theorem foldl_tryBody_pI (d : String) (t : String) (s : AppState) :
    ((tryBody t).foldl (applyCall d) s).processedImage = some d := by
  have h : tryBody t =
      ([CvCall.imread, CvCall.matNew] ++ dispatchCalls t) ++
        [CvCall.imshow, CvCall.setProcessedFromCanvas,
         CvCall.matDelete "img", CvCall.matDelete "dst"] := by
    simp [tryBody]
  rw [h, List.foldl_append]
  rfl

/-- A successful guarded run stores the canvas data URL in processedImage. -/
theorem processImage_pI_none (d : String) (s : AppState)
    (hg : guardFails s = false) :
    (processImage d none s).2.1.processedImage = some d := by
  simp only [processImage, hg, Bool.false_eq_true, if_false,
    execCalls_none_eq]
  exact foldl_tryBody_pI d s.selectedTechnique _

/-- The selected technique of any processImage result is that of the input. -/
theorem processImage_tech (d : String) (ta : Option Nat) (s : AppState) :
    (processImage d ta s).2.1.selectedTechnique = s.selectedTechnique := by
  by_cases hg : guardFails s = true
  · simp [processImage_guard_fail d ta s hg]
  · exact (processImage_fields d ta s (by revert hg; cases guardFails s <;> simp)).2.1

/-! Relating the dark-mode variant to the base version. -/

/-- Try-block effects commute with forgetting the dark-mode flag. -/
theorem projV2_applyCall (d : String) (s : V2.AppState) (c : CvCall) :
    projV2 (V2.applyCall d s c) = applyCall d (projV2 s) c := by
  cases c <;> rfl

/-- Try-block actions never touch the dark-mode flag. -/
theorem applyCall_dark (d : String) (s : V2.AppState) (c : CvCall) :
    (V2.applyCall d s c).isDarkMode = s.isDarkMode := by
  cases c <;> rfl

/-- Running the try block commutes with forgetting the dark-mode flag. -/
theorem execCalls_proj (d : String) (l : List CvCall) :
    ∀ (s : V2.AppState) (ta : Option Nat),
    (V2.execCalls d l s ta).1 = (execCalls d l (projV2 s) ta).1 ∧
    projV2 (V2.execCalls d l s ta).2.1 = (execCalls d l (projV2 s) ta).2.1 ∧
    (V2.execCalls d l s ta).2.2 = (execCalls d l (projV2 s) ta).2.2 := by
  induction l with
  | nil => intro s ta; cases ta <;> simp [V2.execCalls, execCalls]
  | cons c rest ih =>
    intro s ta
    cases ta with
    | none =>
      have h := ih (V2.applyCall d s c) none
      rw [projV2_applyCall] at h
      simp only [V2.execCalls, execCalls, Option.map_none']
      exact ⟨by rw [h.1], h.2.1, h.2.2⟩
    | some n =>
      cases n with
      | zero => simp [V2.execCalls, execCalls]
      | succ m =>
        have h := ih (V2.applyCall d s c) (some m)
        rw [projV2_applyCall] at h
        simp only [V2.execCalls, execCalls, Option.map_some', Nat.add_sub_cancel]
        exact ⟨by rw [h.1], h.2.1, h.2.2⟩

/-- Running the try block never changes the dark-mode flag. -/
theorem execCalls_dark (d : String) (l : List CvCall) :
    ∀ (s : V2.AppState) (ta : Option Nat),
    (V2.execCalls d l s ta).2.1.isDarkMode = s.isDarkMode := by
  induction l with
  | nil => intro s ta; cases ta <;> simp [V2.execCalls]
  | cons c rest ih =>
    intro s ta
    cases ta with
    | none =>
      simp only [V2.execCalls, Option.map_none']
      exact (ih (V2.applyCall d s c) none).trans (applyCall_dark d s c)
    | some n =>
      cases n with
      | zero => simp [V2.execCalls]
      | succ m =>
        simp only [V2.execCalls, Option.map_some', Nat.add_sub_cancel]
        exact (ih (V2.applyCall d s c) (some m)).trans (applyCall_dark d s c)

/-- Both versions' switch statements are the same function. -/
theorem v2_dispatch_eq : V2.dispatchCalls = dispatchCalls := rfl

/-- Both versions' try blocks are the same function. -/
theorem v2_tryBody_eq : V2.tryBody = tryBody := rfl

/-- The variant's guard agrees with the base guard on the projected state. -/
theorem v2_guard_proj (s : V2.AppState) :
    V2.guardFails s = guardFails (projV2 s) := rfl

/-- Every buffer allocated by the full try block is also released by it. -/
theorem tryBody_alloc_sub_release (t : String) :
    (allocatedBufs (tryBody t)).all
      (fun b => decide (b ∈ releasedBufs (tryBody t))) = true := by
  unfold tryBody dispatchCalls
  split_ifs <;> decide

/-! The claims. -/

/-- Claim C1: for each of the seven technique names, the switch dispatches
to a fixed short sequence (one to four) of vision-library calls with fixed
parameters, independent of the input image: GaussianBlur with a 5x5 kernel
and sigma 0; medianBlur with kernel size 5; grayscale then Canny 50/150;
grayscale then Laplacian with depth CV_8U; grayscale then
threshold(127,255,THRESH_BINARY); grayscale then
threshold(0,255,THRESH_BINARY+THRESH_OTSU); grayscale, threshold, 5x5
MORPH_RECT structuring element, then morphologyEx MORPH_OPEN. The call
sequence a run performs does not depend on the image data. -/
theorem claim_C1_dispatch_table :
    dispatchCalls TECHNIQUES.FILTERING.GAUSSIAN =
      [CvCall.gaussianBlur 5 5 0 0 cv.BORDER_DEFAULT] ∧
    dispatchCalls TECHNIQUES.FILTERING.MEDIAN = [CvCall.medianBlur 5] ∧
    dispatchCalls TECHNIQUES.FILTERING.CANNY =
      [CvCall.cvtColor cv.COLOR_RGBA2GRAY, CvCall.canny 50 150 3 false] ∧
    dispatchCalls TECHNIQUES.FILTERING.LAPLACIAN =
      [CvCall.cvtColor cv.COLOR_RGBA2GRAY,
       CvCall.laplacian cv.CV_8U 1 1 0 cv.BORDER_DEFAULT] ∧
    dispatchCalls TECHNIQUES.SEGMENTATION.BINARY =
      [CvCall.cvtColor cv.COLOR_RGBA2GRAY,
       CvCall.threshold 127 255 cv.THRESH_BINARY] ∧
    dispatchCalls TECHNIQUES.SEGMENTATION.OTSU =
      [CvCall.cvtColor cv.COLOR_RGBA2GRAY,
       CvCall.threshold 0 255 (cv.THRESH_BINARY + cv.THRESH_OTSU)] ∧
    dispatchCalls TECHNIQUES.SEGMENTATION.MORPHOLOGICAL =
      [CvCall.cvtColor cv.COLOR_RGBA2GRAY,
       CvCall.threshold 127 255 cv.THRESH_BINARY,
       CvCall.getStructuringElement cv.MORPH_RECT 5 5,
       CvCall.morphologyEx cv.MORPH_OPEN, CvCall.matDelete "kernel"] ∧
    techniqueNames.all
      (fun t => 1 ≤ ((dispatchCalls t).filter isLibCall).length &&
        ((dispatchCalls t).filter isLibCall).length ≤ 4) = true ∧
    ∀ (s : AppState) (d d' : String) (ta : Option Nat),
      (processImage d ta s).1 = (processImage d' ta s).1 := by
  refine ⟨by decide, by decide, by decide, by decide, by decide, by decide,
    by decide, by decide, ?_⟩
  intro s d d' ta
  by_cases hg : guardFails s = true
  · rw [processImage_guard_fail d ta s hg, processImage_guard_fail d' ta s hg]
  · have hg' : guardFails s = false := by revert hg; cases guardFails s <;> simp
    cases ta with
    | none => rw [processImage_fst_none d s hg', processImage_fst_none d' s hg']
    | some i =>
        rw [processImage_fst_some d i s hg', processImage_fst_some d' i s hg']

/-- Claim C5: the fixed enumeration offered to the user has exactly seven
pairwise-distinct names, four filtering and three segmentation. -/
theorem claim_C5_seven_techniques :
    filteringTechniques =
      ["Gaussian Blur", "Median Filter", "Canny Edge Detection",
       "Laplacian Spatial Filter"] ∧
    segmentationTechniques =
      ["Binary Thresholding", "Otsu\x27s Thresholding",
       "Morphological Cleaning"] ∧
    techniqueNames = filteringTechniques ++ segmentationTechniques ∧
    filteringTechniques.length = 4 ∧
    segmentationTechniques.length = 3 ∧
    techniqueNames.length = 7 ∧
    techniqueNames.Nodup :=
  ⟨rfl, rfl, rfl, rfl, rfl, rfl, by decide⟩

/-- Claim C8: whenever handleImageUpload's file read completes (the picker
and the drop zone both route through it), the new data URL becomes the
selected image and the processed image is cleared, so no stale result is
displayed or downloadable next to a new upload. -/
theorem claim_C8_upload_resets :
    ∀ (s : AppState) (url : String),
      (handleImageUpload s url).selectedImage = some url ∧
      (handleImageUpload s url).processedImage = none ∧
      downloadImage (handleImageUpload s url) = [] :=
  fun _ _ => ⟨rfl, rfl, rfl⟩

/-- Claim C2, counterexample: a guarded invocation (Median Filter selected)
in which the third try-block action (cv.medianBlur) throws allocates the
source and destination matrices but releases nothing: the deletes sit at
the end of the try block and the catch only logs, so the claim that all
buffers are released even when a library call throws is false. -/
theorem claim_C2_counterexample :
    guardFails exState = false ∧
    (processImage "u" (some 2) exState).2.2 = true ∧
    allocatedBufs (processImage "u" (some 2) exState).1 = ["img", "dst"] ∧
    releasedBufs (processImage "u" (some 2) exState).1 = [] := by
  decide

/-- Claim C2, amended: in every guarded invocation of processImage in which
no library call throws, every native buffer allocated during the invocation
(the imread source matrix, the destination matrix, and the structuring
element when one is created) is released via delete() before the invocation
completes; when a library call throws, buffers allocated before the throw
are not released (the catch-all only logs). -/
theorem claim_C2_amended_release (s : AppState) (d : String)
    (hg : guardFails s = false) :
    (processImage d none s).2.2 = false ∧
    ∀ b ∈ allocatedBufs (processImage d none s).1,
      b ∈ releasedBufs (processImage d none s).1 := by
  constructor
  · rw [processImage_threw d none s hg]
  · rw [processImage_fst_none d s hg]
    intro b hb
    have h := List.all_eq_true.mp (tryBody_alloc_sub_release s.selectedTechnique) b hb
    exact of_decide_eq_true h

theorem claim_C2_witness :
    guardFails exState = false ∧
    (processImage "u" none exState).2.2 = false ∧
    "img" ∈ allocatedBufs (processImage "u" none exState).1 ∧
    "img" ∈ releasedBufs (processImage "u" none exState).1 :=
  ⟨by decide, (claim_C2_amended_release exState "u" (by decide)).1,
   by decide,
   (claim_C2_amended_release exState "u" (by decide)).2 "img" (by decide)⟩

/-- Claim C3: every successful run of processImage performs exactly, and in
this order: cv.imread of the rendered image element, the destination matrix
allocation, the switch dispatch for the selected technique, cv.imshow onto
the canvas, storing the canvas data URL as the processed image, then
delete() on the source and destination matrices. -/
theorem claim_C3_success_steps (s : AppState) (d : String)
    (hg : guardFails s = false) :
    (processImage d none s).1 =
      [CvCall.imread, CvCall.matNew] ++ dispatchCalls s.selectedTechnique ++
        [CvCall.imshow, CvCall.setProcessedFromCanvas,
         CvCall.matDelete "img", CvCall.matDelete "dst"] ∧
    (processImage d none s).2.1.processedImage = some d ∧
    (processImage d none s).2.2 = false :=
  ⟨processImage_fst_none d s hg, processImage_pI_none d s hg,
   by rw [processImage_threw d none s hg]⟩

theorem claim_C3_witness :
    guardFails exState = false ∧
    (processImage "u" none exState).1 =
      [CvCall.imread, CvCall.matNew] ++ dispatchCalls exState.selectedTechnique ++
        [CvCall.imshow, CvCall.setProcessedFromCanvas,
         CvCall.matDelete "img", CvCall.matDelete "dst"] ∧
    (processImage "u" none exState).2.1.processedImage = some "u" :=
  ⟨by decide, (claim_C3_success_steps exState "u" (by decide)).1,
   (claim_C3_success_steps exState "u" (by decide)).2.1⟩

/-- Claim C4: when a guarded run throws at or before the cv.imshow step
(index at most 2 + the dispatch length, i.e. before the result is rendered
to the canvas), the only failure handling is the catch-all log: the throw
flag is set, processedImage and the other state fields keep their previous
values, and isProcessing is false afterwards; moreover isProcessing is
false after every guarded invocation, throwing or not. -/
theorem claim_C4_error_handling (s : AppState) (d : String) (i : Nat)
    (hg : guardFails s = false)
    (hi : i ≤ 2 + (dispatchCalls s.selectedTechnique).length) :
    (processImage d (some i) s).2.2 = true ∧
    (processImage d (some i) s).2.1.processedImage = s.processedImage ∧
    (processImage d (some i) s).2.1.selectedImage = s.selectedImage ∧
    (processImage d (some i) s).2.1.selectedTechnique = s.selectedTechnique ∧
    (processImage d (some i) s).2.1.isProcessing = false ∧
    ∀ ta : Option Nat, (processImage d ta s).2.1.isProcessing = false := by
  have hA : tryBody s.selectedTechnique =
      ([CvCall.imread, CvCall.matNew] ++ dispatchCalls s.selectedTechnique) ++
        [CvCall.imshow, CvCall.setProcessedFromCanvas,
         CvCall.matDelete "img", CvCall.matDelete "dst"] := by
    simp [tryBody]
  have hlenA :
      ([CvCall.imread, CvCall.matNew] ++ dispatchCalls s.selectedTechnique).length =
        2 + (dispatchCalls s.selectedTechnique).length := by
    simp [List.length_append]
    omega
  have hnotmem :
      CvCall.setProcessedFromCanvas ∉ (tryBody s.selectedTechnique).take i := by
    rw [hA, List.take_append_eq_append_take]
    intro hmem
    rcases List.mem_append.mp hmem with h | h
    · have h' := List.take_subset i _ h
      rcases List.mem_append.mp h' with h2 | h2
      · simp at h2
      · exact setProcessed_not_in_dispatch s.selectedTechnique h2
    · have hz : i - ([CvCall.imread, CvCall.matNew] ++
          dispatchCalls s.selectedTechnique).length = 0 := by
        rw [hlenA]; omega
      rw [hz] at h
      simp at h
  have hfields := processImage_fields d (some i) s hg
  refine ⟨?_, ?_, hfields.1, hfields.2.1, hfields.2.2.1,
    fun ta => (processImage_fields d ta s hg).2.2.1⟩
  · rw [processImage_threw d (some i) s hg]
    have hlen : (tryBody s.selectedTechnique).length =
        (dispatchCalls s.selectedTechnique).length + 6 := by
      rw [hA]
      simp [List.length_append]
    simp only [decide_eq_true_eq]
    omega
  · have hmem : CvCall.setProcessedFromCanvas ∉ (processImage d (some i) s).1 := by
      rw [processImage_fst_some d i s hg]
      exact hnotmem
    simp only [processImage, hg, Bool.false_eq_true, if_false] at hmem ⊢
    exact execCalls_pI_of_not_mem d _ _ _ hmem

theorem claim_C4_witness :
    guardFails exState = false ∧
    2 ≤ 2 + (dispatchCalls exState.selectedTechnique).length ∧
    (processImage "u" (some 2) exState).2.2 = true ∧
    (processImage "u" (some 2) exState).2.1.processedImage =
      exState.processedImage :=
  ⟨by decide, by decide,
   (claim_C4_error_handling exState "u" 2 (by decide) (by decide)).1,
   (claim_C4_error_handling exState "u" 2 (by decide) (by decide)).2.1⟩

/-- Claim C6: processImage performs no action at all (and leaves the state
untouched) when no image is uploaded, no technique is selected, or either
the image or canvas element is not mounted; and the Process Image button is
disabled whenever no image is selected, no technique is selected, or a run
is in progress. -/
theorem claim_C6_guard_and_button :
    (∀ (s : AppState) (d : String) (ta : Option Nat),
      s.selectedImage = none ∨ s.selectedTechnique = "" ∨
        s.imageMounted = false ∨ s.canvasMounted = false →
      (processImage d ta s).1 = [] ∧ (processImage d ta s).2.1 = s) ∧
    (∀ s : AppState,
      s.selectedImage = none ∨ s.selectedTechnique = "" ∨ s.isProcessing = true →
      buttonDisabled s = true) := by
  constructor
  · intro s d ta h
    have hg : guardFails s = true := by
      rcases h with h | h | h | h <;> simp [guardFails, jsFalsy, h]
    rw [processImage_guard_fail d ta s hg]
    exact ⟨rfl, rfl⟩
  · intro s h
    rcases h with h | h | h <;> simp [buttonDisabled, jsFalsy, h]

theorem claim_C6_witness :
    initState.selectedImage = none ∧
    (processImage "u" none initState).1 = [] ∧
    buttonDisabled initState = true :=
  ⟨rfl, (claim_C6_guard_and_button.1 initState "u" none (Or.inl rfl)).1,
   claim_C6_guard_and_button.2 initState (Or.inl rfl)⟩

/-- Claim C7: after every successful guarded run, the result has been
rendered onto the canvas (cv.imshow occurs among the performed actions) and
processedImage holds that canvas's data URL; downloadImage then downloads
exactly that data URL under the filename processed-image.png, and
downloadImage does nothing when processedImage is null. -/
theorem claim_C7_download :
    (∀ (s : AppState) (d : String), guardFails s = false →
      (processImage d none s).2.2 = false ∧
      CvCall.imshow ∈ (processImage d none s).1 ∧
      (processImage d none s).2.1.processedImage = some d ∧
      downloadImage (processImage d none s).2.1 =
        [{ href := d, filename := "processed-image.png" }]) ∧
    (∀ s : AppState, s.processedImage = none → downloadImage s = []) := by
  constructor
  · intro s d hg
    have h1 := processImage_fst_none d s hg
    have h2 := processImage_pI_none d s hg
    refine ⟨?_, ?_, h2, ?_⟩
    · rw [processImage_threw d none s hg]
    · rw [h1]; simp [tryBody]
    · simp [downloadImage, h2]
  · intro s h
    simp [downloadImage, h]

theorem claim_C7_witness :
    guardFails exState = false ∧
    downloadImage (processImage "u" none exState).2.1 =
      [{ href := "u", filename := "processed-image.png" }] ∧
    downloadImage initState = [] :=
  ⟨by decide, (claim_C7_download.1 exState "u" (by decide)).2.2.2,
   claim_C7_download.2 initState rfl⟩

/-- A concrete reachable state passing the guard: upload, select the first
radio value, mount the refs. -/
def exReach : AppState :=
  { selectedImage := some "u", processedImage := none,
    selectedTechnique := TECHNIQUES.FILTERING.GAUSSIAN, isProcessing := false,
    imageMounted := true, canvasMounted := true }

theorem exReach_reachable : Reachable exReach := by
  have h1 : Reachable (handleImageUpload initState "u") :=
    Reachable.step Reachable.init (UIStep.upload initState "u")
  have h2 : Reachable { handleImageUpload initState "u" with
      selectedTechnique := TECHNIQUES.FILTERING.GAUSSIAN } :=
    Reachable.step h1
      (UIStep.selectTech (handleImageUpload initState "u")
        TECHNIQUES.FILTERING.GAUSSIAN (by decide))
  exact Reachable.step h2
    (UIStep.render { handleImageUpload initState "u" with
      selectedTechnique := TECHNIQUES.FILTERING.GAUSSIAN } true true)

/-- Claim C9: in every reachable UI state the selected technique is the
empty string or one of the seven radio values, because it is only ever
assigned from the radio inputs; hence whenever the guard passes, the switch
scrutinee occurs exactly once among the seven case labels. -/
theorem claim_C9_technique_invariant :
    (∀ s : AppState, Reachable s →
      s.selectedTechnique = "" ∨ s.selectedTechnique ∈ techniqueNames) ∧
    (∀ s : AppState, Reachable s → guardFails s = false →
      techniqueNames.count s.selectedTechnique = 1) := by
  have key : ∀ s : AppState, Reachable s →
      s.selectedTechnique = "" ∨ s.selectedTechnique ∈ techniqueNames := by
    intro s hs
    induction hs with
    | init => exact Or.inl rfl
    | step hr hstep ih =>
      cases hstep with
      | upload url => exact ih
      | selectTech t0 h => exact Or.inr h
      | render im cm => exact ih
      | process d ta => rw [processImage_tech]; exact ih
      | download => exact ih
  have hcount : ∀ x ∈ techniqueNames, techniqueNames.count x = 1 := by decide
  refine ⟨key, ?_⟩
  intro s hs hg
  have hne : s.selectedTechnique ≠ "" := by
    intro h
    simp [guardFails, h] at hg
  rcases key s hs with h | h
  · exact absurd h hne
  · exact hcount s.selectedTechnique h

theorem claim_C9_witness :
    Reachable exReach ∧ guardFails exReach = false ∧
    techniqueNames.count exReach.selectedTechnique = 1 :=
  ⟨exReach_reachable, by decide,
   claim_C9_technique_invariant.2 exReach exReach_reachable (by decide)⟩

/-- Forgetting the dark-mode flag commutes with the finally clause's
isProcessing reset. -/
theorem projV2_clear_processing (x : V2.AppState) :
    projV2 { x with isProcessing := false } =
      { projV2 x with isProcessing := false } := rfl

/-- Claim C10: the two versions have equivalent processing behaviour. For
every data URL, throw point and variant state, the variant's processImage
performs the same actions, reports the same throw flag, and yields the same
component state (after forgetting the dark-mode flag) as the base version
on the projected state; the dark-mode flag is untouched by processing, and
flipping it changes neither the performed actions nor the resulting
processed image. -/
theorem claim_C10_equivalence :
    (∀ (d : String) (ta : Option Nat) (s : V2.AppState),
      (V2.processImage d ta s).1 = (processImage d ta (projV2 s)).1 ∧
      projV2 (V2.processImage d ta s).2.1 = (processImage d ta (projV2 s)).2.1 ∧
      (V2.processImage d ta s).2.2 = (processImage d ta (projV2 s)).2.2 ∧
      (V2.processImage d ta s).2.1.isDarkMode = s.isDarkMode) ∧
    (∀ (d : String) (ta : Option Nat) (s : V2.AppState) (b : Bool),
      (V2.processImage d ta { s with isDarkMode := b }).1 =
        (V2.processImage d ta s).1 ∧
      (V2.processImage d ta { s with isDarkMode := b }).2.1.processedImage =
        (V2.processImage d ta s).2.1.processedImage) := by
  have main : ∀ (d : String) (ta : Option Nat) (s : V2.AppState),
      (V2.processImage d ta s).1 = (processImage d ta (projV2 s)).1 ∧
      projV2 (V2.processImage d ta s).2.1 = (processImage d ta (projV2 s)).2.1 ∧
      (V2.processImage d ta s).2.2 = (processImage d ta (projV2 s)).2.2 ∧
      (V2.processImage d ta s).2.1.isDarkMode = s.isDarkMode := by
    intro d ta s
    by_cases hgv : V2.guardFails s = true
    · have hg : guardFails (projV2 s) = true := (v2_guard_proj s) ▸ hgv
      simp only [V2.processImage, processImage, hgv, hg, if_true]
      exact ⟨trivial, trivial, trivial, trivial⟩
    · have hgv' : V2.guardFails s = false := by
        revert hgv; cases V2.guardFails s <;> simp
      have hg : guardFails (projV2 s) = false := (v2_guard_proj s) ▸ hgv'
      simp only [V2.processImage, processImage, hgv', hg,
        Bool.false_eq_true, if_false]
      have h := execCalls_proj d (V2.tryBody s.selectedTechnique)
        { s with isProcessing := true } ta
      have hd := execCalls_dark d (V2.tryBody s.selectedTechnique)
        { s with isProcessing := true } ta
      exact ⟨h.1, by rw [projV2_clear_processing, h.2.1]; exact rfl, h.2.2, hd⟩
  refine ⟨main, ?_⟩
  intro d ta s b
  have h1 := main d ta { s with isDarkMode := b }
  have h2 := main d ta s
  have hproj : projV2 { s with isDarkMode := b } = projV2 s := rfl
  constructor
  · rw [h1.1, h2.1, hproj]
  · have e1 : (V2.processImage d ta { s with isDarkMode := b }).2.1.processedImage =
        (projV2 (V2.processImage d ta { s with isDarkMode := b }).2.1).processedImage := rfl
    have e2 : (V2.processImage d ta s).2.1.processedImage =
        (projV2 (V2.processImage d ta s).2.1).processedImage := rfl
    rw [e1, e2, h1.2.1, h2.2.1, hproj]
